import Mathlib

/-!
Shallow embedding of the Kobot voice bot (src/src/main.rs).

The program is a chat-bot command surface over the songbird voice library:
per-guild voice sessions with a track queue, plus two asynchronous
notifiers (a track-end observer and a delayed-duration timer chain) that
implement idle-session reclaim.  The embedding models one guild's state:
the registry entry (`SysState.session`), the messages the bot sends, the
number of registry removals performed, and whether an `unwrap` panicked.

Songbird primitives used by the code are modelled by their documented
semantics: a `TrackQueue` is a deque whose FRONT element is the
currently-playing track; `pause`/`resume` act on the front; `stop` clears
the queue; `modify_queue` exposes the ENTIRE deque (front included) to the
closure.  Asynchronous handlers are modelled as functions on `SysState`;
where the Rust code releases the session lock between two actions (the
`if let` scope ends before the body runs), the handler is split into two
functions so that interleavings with other commands can be expressed.
-/

namespace Kobot

/-- Play state of a track, as reported by `get_info().playing`. -/
inductive PlayMode
  | Play
  | Pause
deriving DecidableEq, Repr

/-- A queued track: an opaque source id plus its current play mode. -/
structure Track where
  src : Nat
  mode : PlayMode
deriving DecidableEq, Repr

/-- A track enqueued by `enqueue_source` (initially playing/queued). -/
def mkTrack (n : Nat) : Track := ⟨n, PlayMode.Play⟩

/-- A global event registration made via `add_global_event`:
either a `TrackEndNotifier` (for `Event::Track(TrackEvent::End)`) or a
`DurationElapsedNotifier` with its delay in seconds and its `quit` flag
(for `Event::Delayed(Duration::from_secs(secs))`). -/
inductive EventReg
  | trackEnd
  | delayed (secs : Nat) (quit : Bool)
deriving DecidableEq, Repr

/-- The per-guild songbird `Call` handler: the track queue (front =
currently playing), the deafen and mute flags, and the list of global
event registrations. -/
structure CallHandler where
  queue : List Track
  deaf : Bool
  muted : Bool
  events : List EventReg
deriving DecidableEq, Repr

/-- The handler a fresh `manager.join` produces. -/
def emptyHandler : CallHandler := ⟨[], false, false, []⟩

/-- Songbird `TrackQueue::pause`: pauses the front (current) track. -/
def queuePause : List Track → List Track
  | [] => []
  | t :: rest => { t with mode := PlayMode.Pause } :: rest

/-- Songbird `TrackQueue::resume`: resumes the front (current) track. -/
def queueResume : List Track → List Track
  | [] => []
  | t :: rest => { t with mode := PlayMode.Play } :: rest

/-- Observable state for one guild: the registry entry (`manager.get`),
the chat messages sent, how many registry removals (`manager.remove`)
succeeded, and whether some `unwrap()` panicked. -/
structure SysState where
  session : Option CallHandler
  messages : List String
  removals : Nat
  panicked : Bool
deriving DecidableEq, Repr

/-- The message sent by the first stage of `DurationElapsedNotifier`. -/
def pauseNoticeMsg : String := "Paused content after 2 hours. ~resume to resume"

/-- The handler-level part of the `queue` command (main.rs lines 284-359):
enqueue every resolved source, then unconditionally `add_global_event` a
`TrackEndNotifier` and a `Delayed(7200)` `DurationElapsedNotifier`. -/
def queueCmd (srcs : List Nat) (h : CallHandler) : CallHandler :=
  { h with
    queue := h.queue ++ srcs.map mkTrack
    events := h.events ++ [EventReg.trackEnd, EventReg.delayed 7200 false] }

/-- The confirmation message of the `queue` command. -/
def addedMsg (srcs : List Nat) (h : CallHandler) : String :=
  "Added " ++ toString srcs.length ++ " songs to queue: total length is " ++
    toString h.queue.length

/-- The `queue` command (main.rs lines 245-375) at registry level: use the
existing handler, or join (creating a fresh handler) when the invoking
user is in a voice channel, else reply and return.  `srcs` is the list of
sources the resolver produced for the query. -/
def queueCmdState (userInVoice : Bool) (srcs : List Nat) (s : SysState) : SysState :=
  match s.session with
  | some h =>
    let h' := queueCmd srcs h
    { s with session := some h', messages := s.messages ++ [addedMsg srcs h'] }
  | none =>
    if userInVoice then
      let h' := queueCmd srcs emptyHandler
      { s with session := some h', messages := s.messages ++ [addedMsg srcs h'] }
    else
      { s with messages := s.messages ++ ["Not in a voice channel"] }

/-- The `stop` command (main.rs lines 587-611): `queue.stop()` clears the
whole queue; replies accordingly. -/
def stopCmdState (s : SysState) : SysState :=
  match s.session with
  | some h =>
    { s with session := some { h with queue := [] }
             messages := s.messages ++ ["Queue cleared."] }
  | none => { s with messages := s.messages ++ ["Not in a voice channel to play in"] }

/-- The `play` command (main.rs lines 238-242): run `stop`, then `queue`,
on the same arguments. -/
def playCmdState (userInVoice : Bool) (srcs : List Nat) (s : SysState) : SysState :=
  queueCmdState userInVoice srcs (stopCmdState s)

/-- The `resume` command (main.rs lines 559-583): `queue.resume()`. -/
def resumeCmdState (s : SysState) : SysState :=
  match s.session with
  | some h =>
    { s with session := some { h with queue := queueResume h.queue }
             messages := s.messages ++ ["Resumed the queue"] }
  | none => { s with messages := s.messages ++ ["Not in a voice channel to play in"] }

/-- The `leave` command (main.rs lines 170-195): when a handler exists,
`manager.remove` it (succeeds, counting one removal) and reply; else reply
only. -/
def leaveCmdState (s : SysState) : SysState :=
  match s.session with
  | some _ =>
    { s with session := none
             removals := s.removals + 1
             messages := s.messages ++ ["Left voice channel"] }
  | none => { s with messages := s.messages ++ ["Not in a voice channel"] }

/-- First half of `TrackEndNotifier::act` (main.rs lines 389-400): look
the handler up, take its lock, and test `queue.is_empty()`.  The lock is
released when this condition finishes (the `if let` scope ends). -/
def trackEndCheck (s : SysState) : Bool :=
  match s.session with
  | some h => h.queue.isEmpty
  | none => false

/-- Second half of `TrackEndNotifier::act` (main.rs line 401), executed
AFTER the session lock is released: when the check said empty,
`manager.remove(self.guild_id).await.unwrap()` — a removal that fails
(no handler registered any more) panics via `unwrap`. -/
def trackEndRemove (flag : Bool) (s : SysState) : SysState :=
  if flag then
    match s.session with
    | some _ => { s with session := none, removals := s.removals + 1 }
    | none => { s with panicked := true }
  else s

/-- `TrackEndNotifier::act` with nothing interleaved between its two
halves. -/
def trackEndAct (s : SysState) : SysState :=
  trackEndRemove (trackEndCheck s) s

/-- First stage of `DurationElapsedNotifier::act` (`quit == false`,
main.rs lines 418-440): when the handler exists, register a
`Delayed(300)` recheck notifier with `quit == true` and pause the queue;
then — whether or not the handler exists — `say` the pause notice and
`unwrap()` the delivery result (`sayOk = false` models a failed chat
delivery, which panics). -/
def durationFireFirst (sayOk : Bool) (s : SysState) : SysState :=
  let s1 :=
    match s.session with
    | some h =>
      let h' : CallHandler :=
        { h with
          events := h.events ++ [EventReg.delayed 300 true]
          queue := queuePause h.queue }
      { s with session := some h' }
    | none => s
  if sayOk then { s1 with messages := s1.messages ++ [pauseNoticeMsg] }
  else { s1 with panicked := true }

/-- Second stage of `DurationElapsedNotifier::act` (`quit == true`,
main.rs lines 441-459): when the handler exists,
`queue.current().unwrap().get_info().await.unwrap().playing` is compared
with `PlayMode::Pause` (an empty queue makes `current().unwrap()` panic);
when still paused, `let _ = manager.remove(..)` — errors ignored. -/
def durationFireRecheck (s : SysState) : SysState :=
  match s.session with
  | some h =>
    match h.queue.head? with
    | some t =>
      if t.mode = PlayMode.Pause then
        { s with session := none, removals := s.removals + 1 }
      else s
    | none => { s with panicked := true }
  | none => s

/-- Outcomes of the `shuffle` command's queue mutation (main.rs lines
514-516): `queue.pause()`, then
`queue.modify_queue(|q| q.make_contiguous().shuffle(&mut thread_rng()))`
— `modify_queue` exposes the ENTIRE deque, front (currently playing)
included, and Fisher-Yates with an arbitrary rng outcome can produce any
permutation of it — then `queue.resume()`. -/
def shuffleOutcome (q q' : List Track) : Prop :=
  ∃ qm : List Track, (queuePause q).Perm qm ∧ q' = queueResume qm

/-- Result of a mute/deafen-style command: the handler afterwards, the
replies sent, and how many transport calls (`handler.mute` /
`handler.deafen`) were issued. -/
structure CmdOut where
  handler : CallHandler
  replies : List String
  transportCalls : Nat
deriving DecidableEq, Repr

/-- The `deafen` command (main.rs lines 83-118): when already deaf, reply
only; else issue `handler.deafen(true)` (one transport call), replying
"Failed" first when it errs, then "Deafened" in all cases. -/
def deafenCmd (transportOk : Bool) (h : CallHandler) : CmdOut :=
  if h.deaf then ⟨h, ["Already deafened"], 0⟩
  else
    ⟨(if transportOk then { h with deaf := true } else h),
     (if transportOk then [] else ["Failed"]) ++ ["Deafened"], 1⟩

/-- The `mute` command (main.rs lines 199-234): same shape as `deafen`. -/
def muteCmd (transportOk : Bool) (h : CallHandler) : CmdOut :=
  if h.muted then ⟨h, ["Already muted"], 0⟩
  else
    ⟨(if transportOk then { h with muted := true } else h),
     (if transportOk then [] else ["Failed"]) ++ ["Now muted"], 1⟩

/-- The `undeafen` command (main.rs lines 615-644): NO current-state
check — always issues `handler.deafen(false)`. -/
def undeafenCmd (transportOk : Bool) (h : CallHandler) : CmdOut :=
  ⟨(if transportOk then { h with deaf := false } else h),
   (if transportOk then [] else ["Failed"]) ++ ["Undeafened"], 1⟩

/-- The `unmute` command (main.rs lines 648-676): NO current-state
check — always issues `handler.mute(false)`. -/
def unmuteCmd (transportOk : Bool) (h : CallHandler) : CmdOut :=
  ⟨(if transportOk then { h with muted := false } else h),
   (if transportOk then [] else ["Failed"]) ++ ["Unmuted"], 1⟩

/-- Result of `manager.join`'s connection attempt (discarded by the
`join` command). -/
inductive ConnResult
  | ok
  | connError
deriving DecidableEq, Repr

/-- The `join` command (main.rs lines 140-166): reply when the user is in
no voice channel; otherwise `let (_, _) = manager.join(..)` — the join
result `res` is bound to `_` and discarded, so the replies do not depend
on it, and the command returns `Ok(())` either way. -/
def joinCmd (userInVoice : Bool) (res : ConnResult) : List String :=
  match res with
  | _ => if userInVoice then [] else ["Not in a voice channel"]

/-- The commands registered in the `General` group (main.rs lines
52-56). -/
def generalCommands : List String :=
  ["deafen", "mute", "queue", "skip", "stop", "undeafen", "unmute",
   "join", "pause", "resume", "shuffle", "play"]

/-- Every function carrying a `#[command]` attribute in main.rs. -/
def definedCommands : List String :=
  ["deafen", "join", "leave", "mute", "play", "queue", "skip",
   "shuffle", "pause", "resume", "stop", "undeafen", "unmute"]

/-- A registered guild whose queue just became empty (the state a
track-end notification races against). -/
def c1State : SysState := ⟨some emptyHandler, [], 0, false⟩

/-- A handler with one playing track and no event registrations. -/
def c2Handler : CallHandler := ⟨[mkTrack 0], false, false, []⟩

/-- A registered guild with one playing track and no user activity. -/
def c2State : SysState := ⟨some c2Handler, [], 0, false⟩

/-- A guild whose session has been torn down (nothing registered). -/
def goneState : SysState := ⟨none, [], 0, false⟩

/-- A handler that is neither muted nor deafened. -/
def hNeutral : CallHandler := emptyHandler

/-- A handler that is both muted and deafened. -/
def hBoth : CallHandler := ⟨[], true, true, []⟩

/-- Concrete tracks for the shuffle counterexample. -/
def tA : Track := ⟨0, PlayMode.Play⟩

/-- `tA` after the current track was paused. -/
def tA2 : Track := ⟨0, PlayMode.Pause⟩

/-- A second, distinct pending track. -/
def tB : Track := ⟨1, PlayMode.Play⟩

/-- Claim C1 is FALSE as stated.  In `TrackEndNotifier::act` the
emptiness check runs under the session lock, but the `if let` scope ends
before the body runs, so `manager.remove(..).unwrap()` executes after the
lock is released.  Concretely: starting from a registered empty-queue
session, (a) the check reports empty; (b) a `leave` interleaved between
check and removal makes the removal fail and the `unwrap` panic; (c) an
enqueue (`queue` command) interleaved between check and removal leaves a
session whose queue is non-empty, yet the removal still discards it. -/
theorem c1_counterexample :
    trackEndCheck c1State = true ∧
    (trackEndRemove (trackEndCheck c1State) (leaveCmdState c1State)).panicked = true ∧
    (queueCmdState true [5] c1State).session = some (queueCmd [5] emptyHandler) ∧
    (queueCmd [5] emptyHandler).queue ≠ [] ∧
    (trackEndRemove (trackEndCheck c1State) (queueCmdState true [5] c1State)).session = none := by
  decide

/-- Claim C1, amended: when NO other operation interleaves between the
emptiness check and the removal, a track-end notification that finds the
queue of a registered session empty removes the session from the registry
exactly once and does not panic; but the check and the removal are two
separate critical sections (the lock is dropped in between), so the
atomicity the claim asserts does not hold (see the counterexample). -/
theorem c1_trackend_reclaim (s : SysState) (h : CallHandler)
    (hs : s.session = some h) (hq : h.queue = []) :
    (trackEndAct s).session = none ∧
    (trackEndAct s).removals = s.removals + 1 ∧
    (trackEndAct s).panicked = s.panicked := by
  simp [trackEndAct, trackEndCheck, trackEndRemove, hs, hq]

/-- Witness for `c1_trackend_reclaim` at the concrete state `c1State`. -/
theorem c1_trackend_reclaim_witness :
    (trackEndAct c1State).session = none ∧
    (trackEndAct c1State).removals = c1State.removals + 1 ∧
    (trackEndAct c1State).panicked = c1State.panicked :=
  c1_trackend_reclaim c1State emptyHandler rfl rfl

/-- Claim C2: for a registered session with a current track, the
`queue` command arms the 7200-second long-session timer; when it fires
(first stage of `DurationElapsedNotifier`), the current track is paused
and a 300-second recheck timer (`quit == true`) is armed; when the
recheck fires, the session is removed from the registry when the current
track still reports paused, and is left registered (unchanged) when a
`resume` happened in between. -/
theorem c2_idle_chain (s : SysState) (h : CallHandler) (t : Track) (rest : List Track)
    (hs : s.session = some h) (hq : h.queue = t :: rest) :
    EventReg.delayed 7200 false ∈ (queueCmd [] h).events ∧
    (durationFireFirst true s).session =
      some { h with
             queue := { t with mode := PlayMode.Pause } :: rest
             events := h.events ++ [EventReg.delayed 300 true] } ∧
    (durationFireRecheck (durationFireFirst true s)).session = none ∧
    (durationFireRecheck (resumeCmdState (durationFireFirst true s))).session =
      some { h with
             queue := { t with mode := PlayMode.Play } :: rest
             events := h.events ++ [EventReg.delayed 300 true] } := by
  simp [durationFireFirst, durationFireRecheck, resumeCmdState, queueCmd,
        queuePause, queueResume, hs, hq]

/-- Witness for `c2_idle_chain` at the concrete state `c2State`. -/
theorem c2_idle_chain_witness :
    EventReg.delayed 7200 false ∈ (queueCmd [] c2Handler).events ∧
    (durationFireFirst true c2State).session =
      some { c2Handler with
             queue := { mkTrack 0 with mode := PlayMode.Pause } :: []
             events := c2Handler.events ++ [EventReg.delayed 300 true] } ∧
    (durationFireRecheck (durationFireFirst true c2State)).session = none ∧
    (durationFireRecheck (resumeCmdState (durationFireFirst true c2State))).session =
      some { c2Handler with
             queue := { mkTrack 0 with mode := PlayMode.Play } :: []
             events := c2Handler.events ++ [EventReg.delayed 300 true] } :=
  c2_idle_chain c2State c2Handler (mkTrack 0) [] rfl rfl

/-- Claim C3 is FALSE as stated: a first-stage long-session timer that
fires after the session has been torn down (nothing in the registry)
still sends the user-visible pause notice to the channel — an observable
action. -/
theorem c3_counterexample :
    goneState.session = none ∧
    (durationFireFirst true goneState).messages = [pauseNoticeMsg] :=
  ⟨rfl, rfl⟩

/-- Claim C3, amended: after teardown the track-end callback and the
recheck-stage callback are indeed no-ops (state unchanged), but the
first-stage long-session callback still appends the pause notice to the
channel (its only effect); there is no generation marking at all in the
code. -/
theorem c3_stale_timers (msgs : List String) (r : Nat) :
    trackEndAct ⟨none, msgs, r, false⟩ = ⟨none, msgs, r, false⟩ ∧
    durationFireRecheck ⟨none, msgs, r, false⟩ = ⟨none, msgs, r, false⟩ ∧
    durationFireFirst true ⟨none, msgs, r, false⟩ = ⟨none, msgs ++ [pauseNoticeMsg], r, false⟩ :=
  ⟨rfl, rfl, rfl⟩

/-- Claim C4 is FALSE as stated: the `queue` command registers the
track-end observer and the 7200-second timer UNCONDITIONALLY on every
invocation.  Concretely, starting from a fresh handler, the first call
makes the session active (non-empty queue), and the second call — an
enqueue on a session that already has a running chain — leaves TWO
registrations of each notifier instead of one. -/
theorem c4_counterexample :
    (queueCmd [0] emptyHandler).queue ≠ [] ∧
    (queueCmd [1] (queueCmd [0] emptyHandler)).events.count EventReg.trackEnd = 2 ∧
    (queueCmd [1] (queueCmd [0] emptyHandler)).events.count (EventReg.delayed 7200 false) = 2 := by
  decide

/-- Claim C4, amended: every invocation of the `queue` command appends
exactly one fresh track-end registration and one fresh 7200-second timer
registration to the session's event list, whatever its prior state — so
n enqueue invocations produce n timer chains, not one. -/
theorem c4_chain_registered_per_call (h : CallHandler) (srcs : List Nat) :
    (queueCmd srcs h).events =
      h.events ++ [EventReg.trackEnd, EventReg.delayed 7200 false] ∧
    (queueCmd srcs h).events.count EventReg.trackEnd =
      h.events.count EventReg.trackEnd + 1 ∧
    (queueCmd srcs h).events.count (EventReg.delayed 7200 false) =
      h.events.count (EventReg.delayed 7200 false) + 1 := by
  refine ⟨rfl, ?_, ?_⟩ <;> simp [queueCmd]

/-- Claim C5 is FALSE as stated: the `shuffle` command's
`modify_queue(|q| q.make_contiguous().shuffle(..))` permutes the ENTIRE
deque, currently-playing front included.  Concretely, on the queue
`[tA, tB]` with `tA` playing, the swap of the two entries is a possible
shuffle outcome; it changes the head and the pending portion's
multiset. -/
theorem c5_counterexample :
    shuffleOutcome [tA, tB] [tB, tA2] ∧
    ([tB, tA2] : List Track).head? ≠ ([tA, tB] : List Track).head? ∧
    ¬ (([tB, tA2] : List Track).tail.map Track.src).Perm
        (([tA, tB] : List Track).tail.map Track.src) := by
  refine ⟨⟨[tB, tA2], ?_, rfl⟩, by decide, ?_⟩
  · exact List.Perm.swap tB tA2 []
  · intro hp
    have h0 : (0 : Nat) ∈ ([tB, tA2] : List Track).tail.map Track.src := by decide
    have h1 := hp.mem_iff.mp h0
    revert h1
    decide

/-- Claim C5, amended: a shuffle outcome is a permutation of the whole
queue (head included, after the surrounding pause/resume of the current
track), so the multiset of underlying sources of the ENTIRE queue is
preserved; the head entry and the pending portion's multiset are not. -/
theorem c5_shuffle_whole_queue_perm (q q' : List Track) (hq : shuffleOutcome q q') :
    (q'.map Track.src).Perm (q.map Track.src) := by
  obtain ⟨qm, hperm, rfl⟩ := hq
  have h1 : (queueResume qm).map Track.src = qm.map Track.src := by
    cases qm <;> simp [queueResume]
  have h2 : (queuePause q).map Track.src = q.map Track.src := by
    cases q <;> simp [queuePause]
  rw [h1]
  have h3 := hperm.map Track.src
  rw [h2] at h3
  exact h3.symm

/-- Witness for `c5_shuffle_whole_queue_perm` at the swap outcome. -/
theorem c5_shuffle_whole_queue_perm_witness :
    (([tB, tA2] : List Track).map Track.src).Perm
      (([tA, tB] : List Track).map Track.src) :=
  c5_shuffle_whole_queue_perm [tA, tB] [tB, tA2]
    ⟨[tB, tA2], List.Perm.swap tB tA2 [], rfl⟩

/-- Claim C6 is FALSE as stated: the `join` command binds the result of
`manager.join` to `_` (`let (_, _) = manager.join(..)`), so a connection
failure produces no reply at all — the output of the command on a failed
connection equals its output on a successful one. -/
theorem c6_counterexample :
    joinCmd true ConnResult.connError = ([] : List String) ∧
    joinCmd true ConnResult.connError = joinCmd true ConnResult.ok :=
  ⟨rfl, rfl⟩

/-- Claim C6, amended: the `join` command silently discards the
connection outcome — its replies are a function of the invoking user's
voice-channel presence only, independent of the connection result, and no
`ConnectionError` is ever reported. -/
theorem c6_join_discards_result (u : Bool) (r r' : ConnResult) :
    joinCmd u r = joinCmd u r' := by
  cases r <;> cases r' <;> rfl

/-- Claim C7 is FALSE as stated: a failed chat delivery in the
first-stage long-session callback hits `say(..).await.unwrap()` and
panics, and a track-end removal that finds the session already gone (a
racing `leave` removed it between the emptiness check and the removal)
hits `manager.remove(..).await.unwrap()` and panics. -/
theorem c7_counterexample :
    (durationFireFirst false goneState).panicked = true ∧
    (trackEndRemove true goneState).panicked = true :=
  ⟨rfl, rfl⟩

/-- Claim C7, amended: with successful chat delivery the first-stage
callback never panics; the recheck-stage callback and the track-end
callback tolerate an absent session silently; but a failed chat delivery
in the first stage panics (previous theorem's counterexample shows the
failed-removal panic as well). -/
theorem c7_callback_panic_surface (s : SysState) (msgs : List String) (r : Nat) :
    (durationFireFirst true s).panicked = s.panicked ∧
    (durationFireFirst false s).panicked = true ∧
    (durationFireRecheck ⟨none, msgs, r, false⟩).panicked = false ∧
    (trackEndAct ⟨none, msgs, r, false⟩).panicked = false := by
  refine ⟨?_, ?_, rfl, rfl⟩ <;> cases hs : s.session <;> simp [durationFireFirst, hs]

/-- Claim C8 is FALSE as stated: in the clearing direction the commands
perform no current-state check — `unmute` on a handler that is not muted
(and `undeafen` on one that is not deaf) re-issues the transport call and
replies with the ordinary confirmation, not with an already-in-that-state
notice. -/
theorem c8_counterexample :
    hNeutral.muted = false ∧
    (unmuteCmd true hNeutral).transportCalls = 1 ∧
    (unmuteCmd true hNeutral).replies = ["Unmuted"] ∧
    hNeutral.deaf = false ∧
    (undeafenCmd true hNeutral).transportCalls = 1 ∧
    (undeafenCmd true hNeutral).replies = ["Undeafened"] :=
  ⟨rfl, rfl, rfl, rfl, rfl, rfl⟩

/-- Claim C8, amended: only the SETTING direction checks the current
state — `mute`/`deafen` on an already muted/deafened handler reply
already-in-that-state and issue no transport call — while the clearing
commands `unmute`/`undeafen` always issue exactly one transport call,
whatever the current state. -/
theorem c8_setting_direction_only (ok : Bool) (h : CallHandler)
    (hm : h.muted = true) (hd : h.deaf = true) :
    muteCmd ok h = ⟨h, ["Already muted"], 0⟩ ∧
    deafenCmd ok h = ⟨h, ["Already deafened"], 0⟩ ∧
    (unmuteCmd ok h).transportCalls = 1 ∧
    (undeafenCmd ok h).transportCalls = 1 := by
  simp [muteCmd, deafenCmd, unmuteCmd, undeafenCmd, hm, hd]

/-- Witness for `c8_setting_direction_only` at the concrete handler
`hBoth`. -/
theorem c8_setting_direction_only_witness :
    muteCmd true hBoth = ⟨hBoth, ["Already muted"], 0⟩ ∧
    deafenCmd true hBoth = ⟨hBoth, ["Already deafened"], 0⟩ ∧
    (unmuteCmd true hBoth).transportCalls = 1 ∧
    (undeafenCmd true hBoth).transportCalls = 1 :=
  c8_setting_direction_only true hBoth rfl rfl

/-- Claim C9: `leave` is a defined command, yet it is absent from the
registered `General` command group, whose members are exactly the twelve
listed commands — so no user-issued chat command can reach the explicit
teardown path. -/
theorem c9_leave_unreachable :
    "leave" ∈ definedCommands ∧
    "leave" ∉ generalCommands ∧
    generalCommands.all (fun c => definedCommands.contains c) = true := by
  decide

/-- Claim C10: `play` runs `stop` (clearing the whole queue of an
existing session and replying that the queue was cleared) and then
`queue` on the same arguments, so afterwards the session's queue holds
exactly the sources resolved from this invocation's query. -/
theorem c10_play_replaces_queue (u : Bool) (srcs : List Nat) (s : SysState)
    (h : CallHandler) (hs : s.session = some h) :
    (playCmdState u srcs s).session = some (queueCmd srcs { h with queue := [] }) ∧
    (queueCmd srcs { h with queue := [] }).queue = srcs.map mkTrack ∧
    "Queue cleared." ∈ (playCmdState u srcs s).messages := by
  simp [playCmdState, queueCmdState, stopCmdState, queueCmd, hs]

/-- Witness for `c10_play_replaces_queue` at a concrete session. -/
theorem c10_play_replaces_queue_witness :
    (playCmdState true [7] c2State).session =
      some (queueCmd [7] { c2Handler with queue := [] }) ∧
    (queueCmd [7] { c2Handler with queue := [] }).queue = [7].map mkTrack ∧
    "Queue cleared." ∈ (playCmdState true [7] c2State).messages :=
  c10_play_replaces_queue true [7] c2State c2Handler rfl

end Kobot
